import Mathlib

/-!
Verification of the authentication / authorization / version-reconciliation
core of the exam-generator REST API.

The definitions below are a shallow embedding of the JavaScript sources:

  src/api/v2/services/userService.js        (createUser, updateUser)
  src/api/v2/services/authService.js        (AuthService.register)
  src/middlewares/auth.js                   (authMiddleware)
  src/middlewares/authorize.js              (authorize, isAdmin, isOwnerOrAdmin)
  src/middlewares/validate.js               (validate)
  src/api/v2/schemas/userSchema.js          (updateUserSchema)
  src/services/questionService.js           (createQuestion, updateQuestion)
  src/controllers/questionController.js     (HTTP status mapping of errors)

JavaScript conventions are embedded explicitly: an input field of type
Option String is none when the property is absent (undefined in JS) and
some s when it is the string s, JavaScript truthiness of strings treats
the empty string as false, and a field of type Option (Option String)
distinguishes absent (none), null (some none) and a string (some (some s)).
-/

/-- JSON-like values, used for raw request bodies and for response views. -/
inductive JValue where
  | null : JValue
  | str : String → JValue
  | num : Nat → JValue
  | bool : Bool → JValue
deriving DecidableEq, Repr

/-- A stored User row with both the legacy v1 columns (nome, papel) and the
v2 columns (primeiro_nome, sobrenome, tipo_usuario, telefone). -/
structure User where
  id : Nat
  nome : Option String
  primeiro_nome : Option String
  sobrenome : Option String
  email : String
  senha : String
  papel : String
  tipo_usuario : String
  telefone : Option String
  foto : Option String
  createdAt : Nat
  updatedAt : Nat
deriving DecidableEq, Repr

/-- JavaScript truthiness of an optional string: undefined and the empty
string are falsy. -/
def truthyS : Option String → Bool
  | none => false
  | some s => s != ""

/-- JavaScript a or-else b for two optional strings, as in a JS expression
a possibly-undefined value followed by the or operator and a nullable
stored value: the first truthy operand wins, otherwise the second operand
is returned unchanged. -/
def jsOr (a b : Option String) : Option String :=
  match a with
  | some s => if s = "" then b else some s
  | none => b

/-- JavaScript or with a string default, as in userData.papel or PROFESSOR. -/
def jsOrStr (a : Option String) (b : String) : String :=
  match a with
  | some s => if s = "" then b else s
  | none => b

/-- How a nullable value is rendered inside a JS template literal: null
prints as the string null. -/
def strOfNullable : Option String → String
  | some s => s
  | none => "null"

/-- How a possibly-undefined value is rendered inside a JS template literal:
undefined prints as the string undefined. -/
def strOfUndef : Option String → String
  | some s => s
  | none => "undefined"

/-- JavaScript toLowerCase, character by character. -/
def jsToLower (s : String) : String := ⟨s.data.map Char.toLower⟩

/-- JavaScript toUpperCase, character by character. -/
def jsToUpper (s : String) : String := ⟨s.data.map Char.toUpper⟩

/-- JavaScript String.prototype.trim: strip whitespace from both ends. -/
def jsTrim (s : String) : String :=
  ⟨((s.data.dropWhile Char.isWhitespace).reverse.dropWhile Char.isWhitespace).reverse⟩

/-- Split a character list on a separator character; adjacent separators
yield empty pieces, exactly as JavaScript split with a one-character
string separator. -/
def splitChar (c : Char) : List Char → List (List Char)
  | [] => [[]]
  | x :: xs =>
    if x = c then [] :: splitChar c xs
    else
      match splitChar c xs with
      | [] => [[x]]
      | y :: ys => (x :: y) :: ys

/-- JavaScript split on the one-character string consisting of a space,
as authHeader.split in src/middlewares/auth.js. -/
def jsSplitSpace (s : String) : List String :=
  (splitChar ' ' s.data).map (fun l => ⟨l⟩)

/-- Input accepted by the v2 createUser service, after createUserSchema has
run (primeiro_nome, sobrenome, email and senha are required there). -/
structure CreateUserInput where
  primeiro_nome : String
  sobrenome : String
  email : String
  senha : String
  tipo_usuario : Option String
  telefone : Option String
  foto : Option String
deriving DecidableEq, Repr

/-- The row written by createUser in src/api/v2/services/userService.js:
the dadosUsuario object passed to prisma.user.create, with the id and the
timestamps chosen by the database supplied as parameters. -/
def createUser (d : CreateUserInput) (id ts : Nat) : User :=
  { id := id
  , primeiro_nome := some d.primeiro_nome
  , sobrenome := some d.sobrenome
  , tipo_usuario := jsOrStr d.tipo_usuario "professor"
  , telefone := match d.telefone with
      | some s => if s = "" then none else some s
      | none => none
  , nome := some (jsTrim (d.primeiro_nome ++ " " ++ d.sobrenome))
  , papel := if d.tipo_usuario = some "admin" then "ADMIN" else "PROFESSOR"
  , email := d.email
  , senha := d.senha
  , foto := match d.foto with
      | some s => if s = "" then none else some s
      | none => none
  , createdAt := ts
  , updatedAt := ts }

/-- Input accepted by AuthService.register in
src/api/v2/services/authService.js. -/
structure RegisterInput where
  nome : Option String
  primeiro_nome : Option String
  sobrenome : Option String
  email : String
  senha : String
  papel : Option String
  telefone : Option String
  foto : Option String
deriving DecidableEq, Repr

/-- The row written by AuthService.register: the data object passed to
prisma.user.create there. The bcrypt hash primitive is an external
collaborator and is passed in as the function hash. -/
def register (hash : String → String) (d : RegisterInput) (id ts : Nat) : User :=
  { id := id
  , nome := some (match d.nome with
      | some s =>
          if s = "" then strOfUndef d.primeiro_nome ++ " " ++ strOfUndef d.sobrenome
          else s
      | none => strOfUndef d.primeiro_nome ++ " " ++ strOfUndef d.sobrenome)
  , primeiro_nome := d.primeiro_nome
  , sobrenome := d.sobrenome
  , email := d.email
  , senha := hash d.senha
  , papel := jsOrStr d.papel "PROFESSOR"
  , tipo_usuario := jsToLower (jsOrStr d.papel "PROFESSOR")
  , telefone := d.telefone
  , foto := d.foto
  , createdAt := ts
  , updatedAt := ts }

/-- Input seen by the v2 updateUser service. For telefone and foto the
service distinguishes undefined (absent, outer none) from null (some none),
because the code tests them with a strict not-equal against undefined. -/
structure UpdateInput where
  primeiro_nome : Option String
  sobrenome : Option String
  email : Option String
  senha : Option String
  tipo_usuario : Option String
  telefone : Option (Option String)
  foto : Option (Option String)
deriving DecidableEq, Repr

/-- The row resulting from updateUser in
src/api/v2/services/userService.js: the dadosAtualizacao object applied by
prisma.user.update on top of the existing row. -/
def updateUser (existing : User) (d : UpdateInput) (ts : Nat) : User :=
  { id := existing.id
  , primeiro_nome := jsOr d.primeiro_nome existing.primeiro_nome
  , sobrenome := jsOr d.sobrenome existing.sobrenome
  , tipo_usuario := jsOrStr d.tipo_usuario existing.tipo_usuario
  , telefone := match d.telefone with
      | some v => v
      | none => existing.telefone
  , nome :=
      if truthyS d.primeiro_nome || truthyS d.sobrenome then
        some (jsTrim (strOfNullable (jsOr d.primeiro_nome existing.primeiro_nome) ++ " " ++
               strOfNullable (jsOr d.sobrenome existing.sobrenome)))
      else existing.nome
  , papel :=
      if truthyS d.tipo_usuario then
        (if d.tipo_usuario = some "admin" then "ADMIN" else "PROFESSOR")
      else existing.papel
  , email := jsOrStr d.email existing.email
  , senha := jsOrStr d.senha existing.senha
  , foto := match d.foto with
      | some v => v
      | none => existing.foto
  , createdAt := existing.createdAt
  , updatedAt := ts }

/-- The invariant of the spec: the legacy role and the v2 user type agree
in meaning. -/
def papelTipoAgree (u : User) : Prop :=
  (u.papel = "ADMIN" ↔ u.tipo_usuario = "admin") ∧
  (u.papel = "PROFESSOR" ↔ u.tipo_usuario = "professor")

instance (u : User) : Decidable (papelTipoAgree u) := by
  unfold papelTipoAgree; infer_instance

/-- Internal failure causes of JWT verification, as distinguished by the
error name tested in src/middlewares/auth.js: TokenExpiredError,
JsonWebTokenError (malformed token or bad signature), NotBeforeError, and
any other error. -/
inductive JwtError where
  | tokenExpired : JwtError
  | jsonWebToken : JwtError
  | notBefore : JwtError
  | unknown : JwtError
deriving DecidableEq, Repr

/-- The decoded payload returned by verifyToken: generateToken in
src/config/jwt.js embeds sub, email and role. -/
structure TokenPayload where
  sub : Nat
  email : String
  role : Option String
deriving DecidableEq, Repr

/-- The identity attached to the request context as req.user by the
authentication middleware. -/
structure Identity where
  id : Nat
  email : String
  role : Option String
deriving DecidableEq, Repr

/-- Outcome of the authentication middleware: either an UnauthorizedError
with a message, or an identity attached to the request. -/
inductive AuthOutcome where
  | unauthorized : String → AuthOutcome
  | authenticated : Identity → AuthOutcome
deriving DecidableEq, Repr

/-- True when the outcome is the externally visible UNAUTHORIZED failure,
whatever the internal message. -/
def AuthOutcome.isUnauthorized : AuthOutcome → Bool
  | .unauthorized _ => true
  | .authenticated _ => false

/-- authMiddleware from src/middlewares/auth.js. The header argument is
none when the Authorization header is absent; verification of the token is
delegated to the external JWT library, passed in as verify. The split is
on the space character, exactly as authHeader.split in the source. -/
def authMiddleware (verify : String → Except JwtError TokenPayload)
    (header : Option String) : AuthOutcome :=
  match header with
  | none => .unauthorized "Token de autenticação não fornecido"
  | some h =>
    if h = "" then .unauthorized "Token de autenticação não fornecido"
    else
      match jsSplitSpace h with
      | [scheme, token] =>
        if jsToLower scheme ≠ "bearer" then
          .unauthorized "Formato de token inválido. O token deve começar com Bearer"
        else
          match verify token with
          | .ok decoded => .authenticated ⟨decoded.sub, decoded.email, decoded.role⟩
          | .error .tokenExpired =>
              .unauthorized "Token expirado. Por favor, faça login novamente"
          | .error .jsonWebToken =>
              .unauthorized "Token inválido. Por favor, faça login novamente"
          | .error .notBefore => .unauthorized "Token ainda não é válido"
          | .error .unknown => .unauthorized "Falha na autenticação do token"
      | _ => .unauthorized "Formato de token inválido. Use: Bearer <token>"

/-- Outcome of an authorization gate. -/
inductive GateOutcome where
  | pass : GateOutcome
  | unauthorized : String → GateOutcome
  | forbidden : String → GateOutcome
deriving DecidableEq, Repr

def GateOutcome.isPass : GateOutcome → Bool
  | .pass => true
  | _ => false

def GateOutcome.isForbidden : GateOutcome → Bool
  | .forbidden _ => true
  | _ => false

def GateOutcome.isUnauthorized : GateOutcome → Bool
  | .unauthorized _ => true
  | _ => false

/-- authorize from src/middlewares/authorize.js: role-based gate. The user
argument is req.user, none when the authentication middleware did not
attach an identity. -/
def authorize (allowedRoles : List String) (user : Option Identity) : GateOutcome :=
  match user with
  | none => .unauthorized "Usuário não autenticado. Faça login para continuar."
  | some u =>
    if allowedRoles.length = 0 then .pass
    else
      match u.role with
      | none => .forbidden "Papel do usuário não definido. Entre em contato com o administrador."
      | some r =>
        if r = "" then
          .forbidden "Papel do usuário não definido. Entre em contato com o administrador."
        else if (allowedRoles.map jsToUpper).contains (jsToUpper r) then .pass
        else .forbidden ("Acesso negado. Esta ação requer um dos seguintes papéis: " ++
          String.intercalate ", " allowedRoles)

/-- isAdmin from src/middlewares/authorize.js. -/
def isAdmin (user : Option Identity) : GateOutcome := authorize ["ADMIN"] user

/-- isOwnerOrAdmin from src/middlewares/authorize.js. On the PUT
/v2/users/:id route the id parameter has already been coerced to a
positive integer by validate(idParamSchema), so the parseInt in the source
is the identity on it; resourceId is that parsed value. -/
def isOwnerOrAdmin (resourceId : Nat) (user : Option Identity) : GateOutcome :=
  match user with
  | none => .unauthorized "Usuário não autenticado"
  | some u =>
    if u.role.map jsToUpper = some "ADMIN" then .pass
    else if resourceId = u.id then .pass
    else .forbidden "Você não tem permissão para acessar este recurso"

/-- Render an optional string column as a JSON value. -/
def optStr : Option String → JValue
  | some s => .str s
  | none => .null

/-- The v2 user view: the select projection used by getAllUsers,
getUserById and createUser in src/api/v2/services/userService.js. -/
def v2UserView (u : User) : List (String × JValue) :=
  [ ("id", .num u.id)
  , ("primeiro_nome", optStr u.primeiro_nome)
  , ("sobrenome", optStr u.sobrenome)
  , ("email", .str u.email)
  , ("tipo_usuario", .str u.tipo_usuario)
  , ("telefone", optStr u.telefone)
  , ("foto", optStr u.foto)
  , ("createdAt", .num u.createdAt) ]

/-- The v2 user view returned by updateUser, which additionally selects
updatedAt. -/
def v2UserViewUpdated (u : User) : List (String × JValue) :=
  v2UserView u ++ [("updatedAt", .num u.updatedAt)]

/-- The user object returned by AuthService.register (also login and
findById): the whole row with only the senha property removed by the rest
spread. -/
def registerUserView (u : User) : List (String × JValue) :=
  [ ("id", .num u.id)
  , ("nome", optStr u.nome)
  , ("primeiro_nome", optStr u.primeiro_nome)
  , ("sobrenome", optStr u.sobrenome)
  , ("email", .str u.email)
  , ("papel", .str u.papel)
  , ("tipo_usuario", .str u.tipo_usuario)
  , ("telefone", optStr u.telefone)
  , ("foto", optStr u.foto)
  , ("createdAt", .num u.createdAt)
  , ("updatedAt", .num u.updatedAt) ]

/-- Modelled from the spec: the v1 user read view. The v1 user controller
and service files are not part of the snapshot (only the v1 routes and
their response documentation are), so this view follows section 4.5 of the
spec and the documented UserResponseV1 shape: id, full name, role, email,
photo and creation timestamp, never the password. -/
def v1UserView (u : User) : List (String × JValue) :=
  [ ("id", .num u.id)
  , ("nome", optStr u.nome)
  , ("email", .str u.email)
  , ("papel", .str u.papel)
  , ("foto", optStr u.foto)
  , ("createdAt", .num u.createdAt) ]

/-- The field names a response view exposes. -/
def viewKeys (view : List (String × JValue)) : List String := view.map Prod.fst

/-- A raw JSON request body: an object given as a key-value list. -/
abbrev RawBody := List (String × JValue)

/-- Property access on a raw body: none when the key is absent. -/
def lookupKey (body : RawBody) (k : String) : Option JValue :=
  (body.find? (fun p => p.1 = k)).map Prod.snd

/-- The output object of updateUserSchema on success. The first five
fields are omitted from the output when absent from the input (none means
absent); telefone and foto are always present in the output because their
transform maps undefined and null to null (none here means null). -/
structure UpdateBody where
  primeiro_nome : Option String
  sobrenome : Option String
  email : Option String
  senha : Option String
  tipo_usuario : Option String
  telefone : Option String
  foto : Option String
deriving DecidableEq, Repr

/-- Parser for the optional name fields of updateUserSchema: a string of
length 2 to 50, trimmed afterwards; null and non-strings are rejected. -/
def parseOptName (v : Option JValue) : Except String (Option String) :=
  match v with
  | none => .ok none
  | some (.str s) =>
      if s.length < 2 then .error "min"
      else if s.length > 50 then .error "max"
      else .ok (some (jsTrim s))
  | some _ => .error "invalid_type"

/-- Parser for the optional email field: the email format check is the
external zod primitive, passed in as isEmail; afterwards lowercased and
trimmed. -/
def parseOptEmail (isEmail : String → Bool) (v : Option JValue) :
    Except String (Option String) :=
  match v with
  | none => .ok none
  | some (.str s) => if isEmail s then .ok (some (jsTrim (jsToLower s))) else .error "email"
  | some _ => .error "invalid_type"

/-- Parser for the optional senha field: a string of length 6 to 100. -/
def parseOptSenha (v : Option JValue) : Except String (Option String) :=
  match v with
  | none => .ok none
  | some (.str s) =>
      if s.length < 6 then .error "min"
      else if s.length > 100 then .error "max"
      else .ok (some s)
  | some _ => .error "invalid_type"

/-- Parser for the optional tipo_usuario field: the lowercase enum. -/
def parseOptTipo (v : Option JValue) : Except String (Option String) :=
  match v with
  | none => .ok none
  | some (.str s) =>
      if s = "professor" ∨ s = "admin" then .ok (some s)
      else .error "Tipo de usuário deve ser professor ou admin"
  | some _ => .error "invalid_type"

/-- Parser for the telefone and foto fields of updateUserSchema, which are
optional, nullable and carry the transform mapping every falsy value to
null: an absent key and an explicit null both come out as null (none),
and a string must pass the field check ok. -/
def parseNullable (ok : String → Bool) (v : Option JValue) :
    Except String (Option String) :=
  match v with
  | none => .ok none
  | some .null => .ok none
  | some (.str s) => if ok s then .ok (some s) else .error "invalid_string"
  | some _ => .error "invalid_type"

/-- The telefone pattern of the schema: 10 or 11 digits. -/
def telefoneOk (s : String) : Bool :=
  (s.length = 10 || s.length = 11) && s.data.all Char.isDigit

/-- The declared field set of updateUserSchema. -/
def updateKeys : List String :=
  ["primeiro_nome", "sobrenome", "email", "senha", "tipo_usuario", "telefone", "foto"]

/-- The refine predicate of updateUserSchema: some value of the output
object is neither undefined nor null. -/
def anyProvided (b : UpdateBody) : Bool :=
  b.primeiro_nome.isSome || b.sobrenome.isSome || b.email.isSome ||
  b.senha.isSome || b.tipo_usuario.isSome || b.telefone.isSome || b.foto.isSome

/-- updateUserSchema from src/api/v2/schemas/userSchema.js: a strict
object of the seven optional fields followed by the at-least-one-field
refinement. The email format and URL format checks are the external zod
primitives isEmail and isUrl. -/
def updateUserSchemaParse (isEmail isUrl : String → Bool) (body : RawBody) :
    Except String UpdateBody :=
  if body.any (fun p => ¬ updateKeys.contains p.1) then .error "unrecognized_keys"
  else
    match parseOptName (lookupKey body "primeiro_nome"),
          parseOptName (lookupKey body "sobrenome"),
          parseOptEmail isEmail (lookupKey body "email"),
          parseOptSenha (lookupKey body "senha"),
          parseOptTipo (lookupKey body "tipo_usuario"),
          parseNullable telefoneOk (lookupKey body "telefone"),
          parseNullable isUrl (lookupKey body "foto") with
    | .ok pn, .ok sn, .ok em, .ok se, .ok tu, .ok te, .ok fo =>
        let out : UpdateBody := ⟨pn, sn, em, se, tu, te, fo⟩
        if anyProvided out then .ok out
        else .error "Pelo menos um campo deve ser fornecido para atualização"
    | _, _, _, _, _, _, _ => .error "invalid_field"

/-- Outcome of the validate middleware of src/middlewares/validate.js for
the update body: every schema failure becomes the same VALIDATION_ERROR
before the controller or service runs. -/
inductive ValidateOutcome where
  | ok : UpdateBody → ValidateOutcome
  | validationError : String → ValidateOutcome
deriving DecidableEq, Repr

def ValidateOutcome.isValidationError : ValidateOutcome → Bool
  | .validationError _ => true
  | .ok _ => false

/-- validate(updateUserSchema) as mounted on PUT /v2/users/:id: run the
schema, replace the body with the parsed result on success, otherwise
throw ValidationError with the uniform message. -/
def validateUpdate (isEmail isUrl : String → Bool) (body : RawBody) : ValidateOutcome :=
  match updateUserSchemaParse isEmail isUrl body with
  | .ok b => .ok b
  | .error _ => .validationError "Dados de entrada inválidos"

/-- The service input produced from a validated update body: the five
plain optional fields pass through, and telefone and foto are always
present (possibly null), so the strict not-equal-undefined tests in
updateUser see them. -/
def toServiceInput (b : UpdateBody) : UpdateInput :=
  { primeiro_nome := b.primeiro_nome
  , sobrenome := b.sobrenome
  , email := b.email
  , senha := b.senha
  , tipo_usuario := b.tipo_usuario
  , telefone := some b.telefone
  , foto := some b.foto }

/-- The PUT /v2/users/:id pipeline after authentication and authorization:
validate the body against updateUserSchema, then apply updateUser to the
existing row. -/
def pipelineUpdate (isEmail isUrl : String → Bool) (existing : User)
    (body : RawBody) (ts : Nat) : Except String User :=
  match updateUserSchemaParse isEmail isUrl body with
  | .ok b => .ok (updateUser existing (toServiceInput b) ts)
  | .error e => .error e

/-- Raw input of the question services. Numeric fields are none when
absent; JavaScript truthiness makes 0 falsy, which the embedding checks
explicitly where the source does. -/
structure QuestionInput where
  enunciado : Option String
  dificuldade : Option Int
  respostaCorreta : Option String
  disciplinaId : Option Int
  autorId : Option Int
  ativa : Option Bool
deriving DecidableEq, Repr

/-- A stored Question row. -/
structure Question where
  id : Nat
  enunciado : String
  dificuldade : Int
  respostaCorreta : Option String
  disciplinaId : Int
  autorId : Int
  ativa : Bool
  createdAt : Nat
  updatedAt : Nat
deriving DecidableEq, Repr

/-- The slice of the relational store the question services consult:
subjects and users only through existence of an id (disciplinaExists,
autorExists), questions as full rows. -/
structure Db where
  subjectIds : List Int
  userIds : List Int
  questions : List Question
deriving DecidableEq, Repr

/-- createQuestion from src/services/questionService.js: the field checks
of validateQuestionData, the duplicate-enunciado pre-check, then the two
foreign-key existence checks, and only then the insert. The new id and
timestamp are the values the database would assign. Returns the store after
the call together with the result. -/
def createQuestion (db : Db) (d : QuestionInput) (newId ts : Nat) :
    Db × Except String Question :=
  match d.enunciado, d.dificuldade, d.disciplinaId, d.autorId with
  | some en, some df, some di, some au =>
    if en = "" ∨ df = 0 ∨ di = 0 ∨ au = 0 then
      (db, .error "Enunciado, dificuldade, id da disciplina e id do autor são obrigatórios")
    else if df < 1 ∨ 5 < df then
      (db, .error "Dificuldade deve ser entre 1 e 5")
    else if ∃ q ∈ db.questions, q.enunciado = en then
      (db, .error "Enunciado já cadastrado no sistema")
    else if di ∉ db.subjectIds then
      (db, .error "Disciplina não encontrada")
    else if au ∉ db.userIds then
      (db, .error "Autor não encontrado")
    else
      let row : Question :=
        { id := newId, enunciado := en, dificuldade := df
        , respostaCorreta := d.respostaCorreta, disciplinaId := di, autorId := au
        , ativa := d.ativa.getD true, createdAt := ts, updatedAt := ts }
      ({ db with questions := db.questions ++ [row] }, .ok row)
  | _, _, _, _ =>
      (db, .error "Enunciado, dificuldade, id da disciplina e id do autor são obrigatórios")

/-- JavaScript truthiness of an optional integer: undefined and 0 are falsy. -/
def truthyI : Option Int → Bool
  | none => false
  | some n => n ≠ 0

/-- A supplied foreign key whose referenced row is missing: the source
tests the field with JS truthiness and then the existence query. -/
def fkMissing (ids : List Int) : Option Int → Prop
  | some v => v ≠ 0 ∧ v ∉ ids
  | none => False

instance (ids : List Int) (v : Option Int) : Decidable (fkMissing ids v) := by
  cases v <;> simp [fkMissing] <;> infer_instance

/-- The duplicate-enunciado test of updateQuestion: a supplied truthy
enunciado that differs from the existing row but is already used by some
stored question. -/
def enunciadoConflict (db : Db) (existing : Question) : Option String → Prop
  | some en => en ≠ "" ∧ en ≠ existing.enunciado ∧ ∃ q ∈ db.questions, q.enunciado = en
  | none => False

instance (db : Db) (existing : Question) (v : Option String) :
    Decidable (enunciadoConflict db existing v) := by
  cases v <;> simp [enunciadoConflict] <;> infer_instance

/-- A supplied truthy dificuldade outside the 1 to 5 range. -/
def dificuldadeBad : Option Int → Prop
  | some df => df ≠ 0 ∧ (df < 1 ∨ 5 < df)
  | none => False

instance (v : Option Int) : Decidable (dificuldadeBad v) := by
  cases v <;> simp [dificuldadeBad] <;> infer_instance

/-- updateQuestion from src/services/questionService.js: id validation,
existence of the row, then re-validation of each supplied foreign key, the
duplicate-enunciado check, the difficulty range check, and finally the
partial update. Returns the store after the call together with the result. -/
def updateQuestion (db : Db) (questionId : Int) (d : QuestionInput) (ts : Nat) :
    Db × Except String Question :=
  if questionId ≤ 0 then
    (db, .error "ID inválido. Deve ser um número positivo")
  else
    match db.questions.find? (fun q => (q.id : Int) = questionId) with
    | none => (db, .error ("Questão com ID " ++ toString questionId ++ " não encontrada"))
    | some existing =>
      if fkMissing db.subjectIds d.disciplinaId then
        (db, .error "Disciplina não encontrada")
      else if fkMissing db.userIds d.autorId then
        (db, .error "Autor não encontrado")
      else if enunciadoConflict db existing d.enunciado then
        (db, .error "Enunciado já está em uso por outra questão")
      else if dificuldadeBad d.dificuldade then
        (db, .error "Dificuldade deve ser entre 1 e 5")
      else
        let row : Question :=
          { id := existing.id
          , enunciado := if truthyS d.enunciado then d.enunciado.getD existing.enunciado
              else existing.enunciado
          , dificuldade := if truthyI d.dificuldade then d.dificuldade.getD existing.dificuldade
              else existing.dificuldade
          , respostaCorreta := if truthyS d.respostaCorreta then d.respostaCorreta
              else existing.respostaCorreta
          , disciplinaId := if truthyI d.disciplinaId then d.disciplinaId.getD existing.disciplinaId
              else existing.disciplinaId
          , autorId := if truthyI d.autorId then d.autorId.getD existing.autorId
              else existing.autorId
          , ativa := d.ativa.getD existing.ativa
          , createdAt := existing.createdAt
          , updatedAt := ts }
        ({ db with questions :=
            db.questions.map (fun q => if q.id = existing.id then row else q) },
         .ok row)

/-- Substring test, as the JavaScript String.prototype.includes used by the
question controller on error messages. -/
def includesSubstr (s pat : String) : Prop := pat.data <:+: s.data

instance (s pat : String) : Decidable (includesSubstr s pat) := by
  unfold includesSubstr; infer_instance

/-- The HTTP status the create branch of
src/controllers/questionController.js assigns to a service error message. -/
def createQuestionStatus (msg : String) : Nat :=
  if includesSubstr msg "obrigatórios" ∨ includesSubstr msg "já cadastrado" ∨
     includesSubstr msg "Dificuldade deve ser" ∨ includesSubstr msg "não encontrada" ∨
     includesSubstr msg "não encontrado" ∨ includesSubstr msg "Disciplina não encontrada" ∨
     includesSubstr msg "Autor não encontrado" then 400
  else 500

/-- The HTTP status the update branch of
src/controllers/questionController.js assigns to a service error message
(the Prisma P2003 branch is unreachable through the embedded service,
which always checks the foreign keys itself first). -/
def updateQuestionStatus (msg : String) : Nat :=
  if includesSubstr msg "já está em uso" ∨ includesSubstr msg "Dificuldade deve ser" ∨
     includesSubstr msg "Disciplina não encontrada" ∨
     includesSubstr msg "Autor não encontrado" then 400
  else if includesSubstr msg "não encontrada" then 404
  else if includesSubstr msg "inválido" then 400
  else 500

/-- A sample stored user row, a professor with a phone and a photo. -/
def anaUser : User :=
  { id := 7
  , nome := some "Ana Lima"
  , primeiro_nome := some "Ana"
  , sobrenome := some "Lima"
  , email := "ana@escola.com"
  , senha := "hash-of-senha123"
  , papel := "PROFESSOR"
  , tipo_usuario := "professor"
  , telefone := some "1199999999"
  , foto := some "https://exemplo.com/a.png"
  , createdAt := 0
  , updatedAt := 0 }

/-- C1: the claim says every User-writing operation stores only an
irreversible hash of the password. AuthService.register does store the
bcrypt hash, but the v2 createUser and updateUser services store the
supplied plaintext unchanged (their own TODO-hash comments mark the
omission), so the code contradicts the documented intent: this theorem
evaluates the three write paths, exhibiting the plaintext on the v2 create
and update paths. -/
theorem c1_v2_create_and_update_store_plaintext :
    (∀ (hash : String → String) (d : RegisterInput) (id ts : Nat),
       (register hash d id ts).senha = hash d.senha) ∧
    (createUser ⟨"Ana", "Lima", "ana@escola.com", "senha123", some "professor",
       none, none⟩ 1 0).senha = "senha123" ∧
    (updateUser anaUser ⟨none, none, none, some "novaSenha1", none, none, none⟩ 1).senha
      = "novaSenha1" := by
  refine ⟨fun hash d id ts => rfl, rfl, ?_⟩
  simp [updateUser, jsOrStr]

/-- C2: after every embedded write to a User row, the stored legacy papel
and the stored v2 tipo_usuario agree in meaning, given that the inputs
respect the role enumerations enforced by the route schemas (papel in
PROFESSOR or ADMIN or absent on the register path, tipo_usuario in
professor or admin or absent on the v2 paths); in particular a v2 create
with tipo_usuario admin stores papel ADMIN (what a v1 read of the row
returns), and a register with papel ADMIN stores tipo_usuario admin. -/
theorem c2_papel_tipo_usuario_agree :
    (∀ (hash : String → String) (d : RegisterInput) (id ts : Nat),
       d.papel = none ∨ d.papel = some "PROFESSOR" ∨ d.papel = some "ADMIN" →
       papelTipoAgree (register hash d id ts)) ∧
    (∀ (d : CreateUserInput) (id ts : Nat),
       d.tipo_usuario = none ∨ d.tipo_usuario = some "professor" ∨
         d.tipo_usuario = some "admin" →
       papelTipoAgree (createUser d id ts)) ∧
    (∀ (existing : User) (d : UpdateInput) (ts : Nat),
       d.tipo_usuario = none ∨ d.tipo_usuario = some "professor" ∨
         d.tipo_usuario = some "admin" →
       papelTipoAgree existing → papelTipoAgree (updateUser existing d ts)) ∧
    (∀ (d : CreateUserInput) (id ts : Nat),
       d.tipo_usuario = some "admin" → (createUser d id ts).papel = "ADMIN") ∧
    (∀ (hash : String → String) (d : RegisterInput) (id ts : Nat),
       d.papel = some "ADMIN" → (register hash d id ts).tipo_usuario = "admin") := by
  refine ⟨?_, ?_, ?_, ?_, ?_⟩
  · intro hash d id ts h
    rcases h with h | h | h <;> simp [register, jsOrStr, papelTipoAgree, h] <;> decide
  · intro d id ts h
    rcases h with h | h | h <;> simp [createUser, jsOrStr, papelTipoAgree, h] <;> decide
  · intro existing d ts h hag
    rcases h with h | h | h <;>
      simp [updateUser, jsOrStr, truthyS, papelTipoAgree, h] <;>
      first
      | exact hag
      | decide
  · intro d id ts h
    simp [createUser, h]
  · intro hash d id ts h
    simp [register, jsOrStr, h]
    decide

/-- Witness for C2 at concrete inputs: an ADMIN register, an admin v2
create, an admin v2 update on a professor row, and the two explicit
cross-version readings. -/
theorem c2_papel_tipo_usuario_agree_witness :
    papelTipoAgree (register (fun s => "H" ++ s)
      ⟨none, some "Ana", some "Lima", "ana@escola.com", "senha123", some "ADMIN",
       none, none⟩ 1 0) ∧
    papelTipoAgree (createUser
      ⟨"Ana", "Lima", "ana@escola.com", "senha123", some "admin", none, none⟩ 1 0) ∧
    papelTipoAgree (updateUser anaUser
      ⟨none, none, none, none, some "admin", none, none⟩ 1) ∧
    (createUser ⟨"Ana", "Lima", "ana@escola.com", "senha123", some "admin",
       none, none⟩ 2 0).papel = "ADMIN" ∧
    (register (fun s => s) ⟨none, some "Ana", some "Lima", "ana@escola.com",
       "senha123", some "ADMIN", none, none⟩ 3 0).tipo_usuario = "admin" :=
  ⟨c2_papel_tipo_usuario_agree.1 _ _ 1 0 (Or.inr (Or.inr rfl)),
   c2_papel_tipo_usuario_agree.2.1 _ 1 0 (Or.inr (Or.inr rfl)),
   c2_papel_tipo_usuario_agree.2.2.1 anaUser _ 1 (Or.inr (Or.inr rfl)) (by decide),
   c2_papel_tipo_usuario_agree.2.2.2.1 _ 2 0 rfl,
   c2_papel_tipo_usuario_agree.2.2.2.2 _ _ 3 0 rfl⟩

/-- C5: the full-name mirror. On create the stored nome is the trimmed
concatenation of the supplied first and last name; on an update supplying
only one name part, nome is recomputed from the supplied part and the
stored other part. -/
theorem c5_nome_mirror :
    (∀ (d : CreateUserInput) (id ts : Nat),
       (createUser d id ts).nome = some (jsTrim (d.primeiro_nome ++ " " ++ d.sobrenome))) ∧
    (∀ (existing : User) (d : UpdateInput) (ts : Nat) (p s : String),
       d.primeiro_nome = none → d.sobrenome = some s → s ≠ "" →
       existing.primeiro_nome = some p →
       (updateUser existing d ts).nome = some (jsTrim (p ++ " " ++ s))) ∧
    (∀ (existing : User) (d : UpdateInput) (ts : Nat) (p s : String),
       d.sobrenome = none → d.primeiro_nome = some p → p ≠ "" →
       existing.sobrenome = some s →
       (updateUser existing d ts).nome = some (jsTrim (p ++ " " ++ s))) := by
  refine ⟨fun d id ts => rfl, ?_, ?_⟩
  · intro existing d ts p s h1 h2 hs hp
    simp [updateUser, truthyS, jsOr, strOfNullable, h1, h2, hp, hs]
  · intro existing d ts p s h1 h2 hp hs
    simp [updateUser, truthyS, jsOr, strOfNullable, h1, h2, hp, hs]

/-- Witness for C5 at concrete inputs: an update supplying only the last
name recomputes nome from the stored first name, and symmetrically. -/
theorem c5_nome_mirror_witness :
    (updateUser anaUser ⟨none, some "Souza", none, none, none, none, none⟩ 1).nome
      = some (jsTrim ("Ana" ++ " " ++ "Souza")) ∧
    (updateUser anaUser ⟨some "Bia", none, none, none, none, none, none⟩ 1).nome
      = some (jsTrim ("Bia" ++ " " ++ "Lima")) :=
  ⟨c5_nome_mirror.2.1 anaUser _ 1 "Ana" "Souza" rfl rfl (by decide) rfl,
   c5_nome_mirror.2.2 anaUser _ 1 "Bia" "Lima" rfl rfl (by decide) rfl⟩

/-- Inversion of a successful updateUserSchemaParse run: each component of
the output is the result of the corresponding field parser, and the
at-least-one-field refinement held. -/
theorem updateUserSchemaParse_ok_inv (isEmail isUrl : String → Bool)
    (body : RawBody) (b : UpdateBody)
    (h : updateUserSchemaParse isEmail isUrl body = .ok b) :
    parseOptName (lookupKey body "primeiro_nome") = .ok b.primeiro_nome ∧
    parseOptName (lookupKey body "sobrenome") = .ok b.sobrenome ∧
    parseOptEmail isEmail (lookupKey body "email") = .ok b.email ∧
    parseOptSenha (lookupKey body "senha") = .ok b.senha ∧
    parseOptTipo (lookupKey body "tipo_usuario") = .ok b.tipo_usuario ∧
    parseNullable telefoneOk (lookupKey body "telefone") = .ok b.telefone ∧
    parseNullable isUrl (lookupKey body "foto") = .ok b.foto ∧
    anyProvided b = true := by
  unfold updateUserSchemaParse at h
  split at h
  · cases h
  · split at h
    · rename_i pn sn em se tu te fo hpn hsn hem hse htu hte hfo
      dsimp only at h
      split at h
      · rename_i hap
        cases h
        exact ⟨hpn, hsn, hem, hse, htu, hte, hfo, hap⟩
      · cases h
    · cases h

/-- C6 counterexample: a PUT /v2/users/:id body supplying only
primeiro_nome leaves foto and telefone out of the request, yet the stored
foto and telefone are reset to null, because the schema transform turns
the absent fields into null and the service stores any value that is not
undefined. This refutes the claim that every stored field absent from the
request is unchanged. -/
theorem c6_counterexample_update_erases_absent_foto :
    "foto" ∉ (([("primeiro_nome", JValue.str "Nova")] : RawBody).map Prod.fst) ∧
    "telefone" ∉ (([("primeiro_nome", JValue.str "Nova")] : RawBody).map Prod.fst) ∧
    (pipelineUpdate (fun _ => true) (fun _ => true) anaUser
        [("primeiro_nome", JValue.str "Nova")] 1).map User.foto = .ok none ∧
    (pipelineUpdate (fun _ => true) (fun _ => true) anaUser
        [("primeiro_nome", JValue.str "Nova")] 1).map User.telefone = .ok none ∧
    anaUser.foto = some "https://exemplo.com/a.png" ∧
    anaUser.telefone = some "1199999999" :=
  ⟨by decide, by decide, rfl, rfl, rfl, rfl⟩

/-- C6 amended: for every validated v2 user update, every stored field
not present in the request other than telefone and foto remains unchanged
in both representations, while an absent telefone or foto is normalized to
null by the schema and therefore stored as null; in particular an update
supplying only telefone does not alter primeiro_nome, sobrenome, nome,
papel or tipo_usuario. -/
theorem c6_frame_under_update :
    ∀ (isEmail isUrl : String → Bool) (existing : User) (body : RawBody)
      (ts : Nat) (b : UpdateBody),
      updateUserSchemaParse isEmail isUrl body = .ok b →
      ((b.primeiro_nome = none →
         (updateUser existing (toServiceInput b) ts).primeiro_nome = existing.primeiro_nome) ∧
       (b.sobrenome = none →
         (updateUser existing (toServiceInput b) ts).sobrenome = existing.sobrenome) ∧
       (b.primeiro_nome = none → b.sobrenome = none →
         (updateUser existing (toServiceInput b) ts).nome = existing.nome) ∧
       (b.tipo_usuario = none →
         (updateUser existing (toServiceInput b) ts).papel = existing.papel ∧
         (updateUser existing (toServiceInput b) ts).tipo_usuario = existing.tipo_usuario) ∧
       (b.email = none →
         (updateUser existing (toServiceInput b) ts).email = existing.email) ∧
       (b.senha = none →
         (updateUser existing (toServiceInput b) ts).senha = existing.senha) ∧
       (lookupKey body "telefone" = none →
         (updateUser existing (toServiceInput b) ts).telefone = none) ∧
       (lookupKey body "foto" = none →
         (updateUser existing (toServiceInput b) ts).foto = none) ∧
       (b.primeiro_nome = none → b.sobrenome = none → b.tipo_usuario = none →
         (updateUser existing (toServiceInput b) ts).primeiro_nome = existing.primeiro_nome ∧
         (updateUser existing (toServiceInput b) ts).sobrenome = existing.sobrenome ∧
         (updateUser existing (toServiceInput b) ts).nome = existing.nome ∧
         (updateUser existing (toServiceInput b) ts).papel = existing.papel ∧
         (updateUser existing (toServiceInput b) ts).tipo_usuario = existing.tipo_usuario)) := by
  intro isEmail isUrl existing body ts b h
  have inv := updateUserSchemaParse_ok_inv isEmail isUrl body b h
  refine ⟨?_, ?_, ?_, ?_, ?_, ?_, ?_, ?_, ?_⟩
  · intro h1; simp [updateUser, toServiceInput, jsOr, h1]
  · intro h1; simp [updateUser, toServiceInput, jsOr, h1]
  · intro h1 h2; simp [updateUser, toServiceInput, truthyS, h1, h2]
  · intro h1; simp [updateUser, toServiceInput, truthyS, jsOrStr, h1]
  · intro h1; simp [updateUser, toServiceInput, jsOrStr, h1]
  · intro h1; simp [updateUser, toServiceInput, jsOrStr, h1]
  · intro hl
    have hte := inv.2.2.2.2.2.1
    rw [hl] at hte
    simp only [parseNullable, Except.ok.injEq] at hte
    simp [updateUser, toServiceInput, ← hte]
  · intro hl
    have hfo := inv.2.2.2.2.2.2.1
    rw [hl] at hfo
    simp only [parseNullable, Except.ok.injEq] at hfo
    simp [updateUser, toServiceInput, ← hfo]
  · intro h1 h2 h3
    refine ⟨?_, ?_, ?_, ?_, ?_⟩ <;>
      simp [updateUser, toServiceInput, truthyS, jsOr, jsOrStr, h1, h2, h3]

/-- Witness for C6 amended at a telefone-only update of the sample row. -/
theorem c6_frame_under_update_witness :
    (updateUser anaUser
       (toServiceInput ⟨none, none, none, none, none, some "1188888888", none⟩) 1).primeiro_nome
      = anaUser.primeiro_nome ∧
    (updateUser anaUser
       (toServiceInput ⟨none, none, none, none, none, some "1188888888", none⟩) 1).sobrenome
      = anaUser.sobrenome ∧
    (updateUser anaUser
       (toServiceInput ⟨none, none, none, none, none, some "1188888888", none⟩) 1).nome
      = anaUser.nome ∧
    (updateUser anaUser
       (toServiceInput ⟨none, none, none, none, none, some "1188888888", none⟩) 1).papel
      = anaUser.papel ∧
    (updateUser anaUser
       (toServiceInput ⟨none, none, none, none, none, some "1188888888", none⟩) 1).tipo_usuario
      = anaUser.tipo_usuario :=
  (c6_frame_under_update (fun _ => true) (fun _ => true) anaUser
     [("telefone", JValue.str "1188888888")] 1
     ⟨none, none, none, none, none, some "1188888888", none⟩
     (by rfl)).2.2.2.2.2.2.2.2 rfl rfl rfl

/-- C10: the update body validation is strict: any property outside the
declared v2 field set makes validate fail with VALIDATION_ERROR before the
controller runs, a successful parse always carries at least one non-null
declared field, and the empty body always fails. -/
theorem c10_update_validation_strict :
    ∀ (isEmail isUrl : String → Bool) (body : RawBody),
      ((∃ p ∈ body, p.1 ∉ updateKeys) →
        (validateUpdate isEmail isUrl body).isValidationError = true) ∧
      (∀ b, updateUserSchemaParse isEmail isUrl body = .ok b → anyProvided b = true) ∧
      (validateUpdate isEmail isUrl []).isValidationError = true := by
  intro isEmail isUrl body
  refine ⟨?_, ?_, ?_⟩
  · rintro ⟨p, hmem, hk⟩
    have hb : body.any (fun p => ¬ updateKeys.contains p.1) = true := by
      rw [List.any_eq_true]
      exact ⟨p, hmem, by simpa using hk⟩
    simp only [validateUpdate, updateUserSchemaParse]
    rw [if_pos hb]
    rfl
  · intro b h
    exact (updateUserSchemaParse_ok_inv isEmail isUrl body b h).2.2.2.2.2.2.2
  · rfl

/-- Witness for C10: a body with an undeclared property is rejected, and
a successful single-field parse indeed carries a provided field. -/
theorem c10_update_validation_strict_witness :
    (validateUpdate (fun _ => true) (fun _ => true)
       [("hacker", JValue.str "x")]).isValidationError = true ∧
    anyProvided ⟨some "Nova", none, none, none, none, none, none⟩ = true :=
  ⟨(c10_update_validation_strict (fun _ => true) (fun _ => true)
      [("hacker", JValue.str "x")]).1 ⟨("hacker", JValue.str "x"), by decide, by decide⟩,
   (c10_update_validation_strict (fun _ => true) (fun _ => true)
      [("primeiro_nome", JValue.str "Nova")]).2.1
     ⟨some "Nova", none, none, none, none, none, none⟩ (by rfl)⟩

/-- C3: the Authorization header matrix of the authentication middleware:
absent or empty header, any value that does not split on the space
character into exactly two parts (Bearer alone, a bare token, a double
space), and a two-part value whose scheme is not case-insensitively
Bearer, all fail UNAUTHORIZED; a lowercase bearer scheme with a verifying
token succeeds and attaches the identity id, email and role. -/
theorem c3_auth_header_matrix :
    ∀ (verify : String → Except JwtError TokenPayload),
      (authMiddleware verify none).isUnauthorized = true ∧
      (authMiddleware verify (some "")).isUnauthorized = true ∧
      (∀ h : String, (jsSplitSpace h).length ≠ 2 →
        (authMiddleware verify (some h)).isUnauthorized = true) ∧
      (authMiddleware verify (some "Bearer")).isUnauthorized = true ∧
      (authMiddleware verify (some "abc123token")).isUnauthorized = true ∧
      (authMiddleware verify (some "Bearer  tok")).isUnauthorized = true ∧
      (∀ (h scheme token : String), jsSplitSpace h = [scheme, token] →
        jsToLower scheme ≠ "bearer" →
        (authMiddleware verify (some h)).isUnauthorized = true) ∧
      (∀ (t : String) (p : TokenPayload),
        jsSplitSpace ("bearer " ++ t) = ["bearer", t] → verify t = .ok p →
        authMiddleware verify (some ("bearer " ++ t)) =
          .authenticated ⟨p.sub, p.email, p.role⟩) := by
  intro verify
  refine ⟨rfl, rfl, ?_, rfl, rfl, rfl, ?_, ?_⟩
  · intro h hlen
    unfold authMiddleware
    dsimp only
    by_cases he : h = ""
    · simp [he, AuthOutcome.isUnauthorized]
    · rw [if_neg he]
      rcases hsp : jsSplitSpace h with _ | ⟨a, _ | ⟨b, _ | ⟨c, tl⟩⟩⟩
      · rfl
      · rfl
      · exact absurd (by simp [hsp]) hlen
      · rfl
  · intro h scheme token hsp hne
    unfold authMiddleware
    dsimp only
    by_cases he : h = ""
    · rw [he] at hsp
      have h0 : jsSplitSpace "" = [""] := rfl
      rw [h0] at hsp
      simp at hsp
    · rw [if_neg he, hsp]
      dsimp only
      rw [if_pos hne]
      rfl
  · intro t p hsp hv
    have he : ("bearer " ++ t) ≠ "" := by
      intro hc
      rw [hc] at hsp
      have h0 : jsSplitSpace "" = [""] := rfl
      rw [h0] at hsp
      simp at hsp
    unfold authMiddleware
    dsimp only
    rw [if_neg he, hsp]
    dsimp only
    have hb : ¬ (jsToLower "bearer" ≠ "bearer") := by decide
    rw [if_neg hb, hv]

/-- A concrete token verifier for witnesses: accepts exactly the token
tok123 with a professor identity. -/
def sampleVerify (t : String) : Except JwtError TokenPayload :=
  if t = "tok123" then .ok ⟨5, "ana@escola.com", some "PROFESSOR"⟩
  else .error .jsonWebToken

/-- Witness for C3, exercising every hypothesis at concrete inputs: a
three-part header, a wrong scheme, and a lowercase bearer header with a
verifying token. -/
theorem c3_auth_header_matrix_witness :
    (authMiddleware sampleVerify (some "Bearer a b")).isUnauthorized = true ∧
    (authMiddleware sampleVerify (some "Token abc")).isUnauthorized = true ∧
    authMiddleware sampleVerify (some ("bearer " ++ "tok123")) =
      .authenticated ⟨5, "ana@escola.com", some "PROFESSOR"⟩ :=
  ⟨(c3_auth_header_matrix sampleVerify).2.2.1 "Bearer a b" (by decide),
   (c3_auth_header_matrix sampleVerify).2.2.2.2.2.2.1 "Token abc" "Token" "abc"
     (by rfl) (by decide),
   (c3_auth_header_matrix sampleVerify).2.2.2.2.2.2.2 "tok123"
     ⟨5, "ana@escola.com", some "PROFESSOR"⟩ (by rfl) (by rfl)⟩

/-- C4: the ownership gate isOwnerOrAdmin fails UNAUTHORIZED without an
attached identity, passes unconditionally for a case-insensitive ADMIN
role, and otherwise passes exactly when the route id equals the identity
id, failing FORBIDDEN otherwise; and the isAdmin gate on POST /v2/users
rejects a PROFESSOR identity with FORBIDDEN. -/
theorem c4_owner_or_admin_gate :
    (∀ rid : Nat, (isOwnerOrAdmin rid none).isUnauthorized = true) ∧
    (∀ (rid : Nat) (u : Identity), u.role.map jsToUpper = some "ADMIN" →
      isOwnerOrAdmin rid (some u) = .pass) ∧
    (∀ (rid : Nat) (u : Identity), u.role.map jsToUpper ≠ some "ADMIN" →
      ((isOwnerOrAdmin rid (some u) = .pass ↔ rid = u.id) ∧
       (rid ≠ u.id → (isOwnerOrAdmin rid (some u)).isForbidden = true))) ∧
    (∀ u : Identity, u.role = some "PROFESSOR" →
      (isAdmin (some u)).isForbidden = true) ∧
    (∀ (rid : Nat) (u : Identity), u.role = some "PROFESSOR" →
      (isOwnerOrAdmin rid (some u) = .pass ↔ rid = u.id)) := by
  refine ⟨fun rid => rfl, ?_, ?_, ?_, ?_⟩
  · intro rid u h
    simp [isOwnerOrAdmin, h]
  · intro rid u h
    constructor
    · constructor
      · intro hp
        by_contra hne
        simp [isOwnerOrAdmin, h, hne] at hp
      · intro hid
        simp [isOwnerOrAdmin, h, hid]
    · intro hne
      simp [isOwnerOrAdmin, GateOutcome.isForbidden, h, hne]
  · intro u h
    simp [isAdmin, authorize, h]
    decide
  · intro rid u h
    have hne : u.role.map jsToUpper ≠ some "ADMIN" := by
      rw [h]
      decide
    constructor
    · intro hp
      by_contra hne2
      simp [isOwnerOrAdmin, hne, hne2] at hp
    · intro hid
      simp [isOwnerOrAdmin, hne, hid]

/-- Witness for C4 at concrete identities: a professor creating a user is
FORBIDDEN, updating the own id passes, updating another id is FORBIDDEN,
an admin passes for a foreign id, and a missing identity is UNAUTHORIZED. -/
theorem c4_owner_or_admin_gate_witness :
    (isAdmin (some ⟨5, "ana@escola.com", some "PROFESSOR"⟩)).isForbidden = true ∧
    isOwnerOrAdmin 5 (some ⟨5, "ana@escola.com", some "PROFESSOR"⟩) = .pass ∧
    (isOwnerOrAdmin 9 (some ⟨5, "ana@escola.com", some "PROFESSOR"⟩)).isForbidden = true ∧
    isOwnerOrAdmin 9 (some ⟨5, "ana@escola.com", some "ADMIN"⟩) = .pass ∧
    (isOwnerOrAdmin 9 none).isUnauthorized = true :=
  ⟨(c4_owner_or_admin_gate.2.2.2.1 ⟨5, "ana@escola.com", some "PROFESSOR"⟩ rfl),
   ((c4_owner_or_admin_gate.2.2.2.2 5 ⟨5, "ana@escola.com", some "PROFESSOR"⟩ rfl).mpr rfl),
   ((c4_owner_or_admin_gate.2.2.1 9 ⟨5, "ana@escola.com", some "PROFESSOR"⟩ (by decide)).2
      (by decide)),
   (c4_owner_or_admin_gate.2.1 9 ⟨5, "ana@escola.com", some "ADMIN"⟩ (by decide)),
   c4_owner_or_admin_gate.1 9⟩

/-- C7: whenever token verification fails, the middleware outcome is the
single externally visible UNAUTHORIZED failure, for every internal cause,
while the three internal causes expired, malformed and not-yet-valid are
mapped to three pairwise distinct internal messages. -/
theorem c7_unauthorized_uniform_externally :
    ∀ (verify : String → Except JwtError TokenPayload) (t : String),
      jsSplitSpace ("Bearer " ++ t) = ["Bearer", t] →
      ((∀ e : JwtError, verify t = .error e →
         (authMiddleware verify (some ("Bearer " ++ t))).isUnauthorized = true) ∧
       (verify t = .error .tokenExpired →
         authMiddleware verify (some ("Bearer " ++ t)) =
           .unauthorized "Token expirado. Por favor, faça login novamente") ∧
       (verify t = .error .jsonWebToken →
         authMiddleware verify (some ("Bearer " ++ t)) =
           .unauthorized "Token inválido. Por favor, faça login novamente") ∧
       (verify t = .error .notBefore →
         authMiddleware verify (some ("Bearer " ++ t)) =
           .unauthorized "Token ainda não é válido") ∧
       (("Token expirado. Por favor, faça login novamente" ≠
           "Token inválido. Por favor, faça login novamente") ∧
        ("Token expirado. Por favor, faça login novamente" ≠
           "Token ainda não é válido") ∧
        ("Token inválido. Por favor, faça login novamente" ≠
           "Token ainda não é válido"))) := by
  intro verify t hsp
  have he : ("Bearer " ++ t) ≠ "" := by
    intro hc
    rw [hc] at hsp
    have h0 : jsSplitSpace "" = [""] := rfl
    rw [h0] at hsp
    simp at hsp
  have hb : ¬ (jsToLower "Bearer" ≠ "bearer") := by decide
  refine ⟨?_, ?_, ?_, ?_, by decide, by decide, by decide⟩
  · intro e hv
    unfold authMiddleware
    dsimp only
    rw [if_neg he, hsp]
    dsimp only
    rw [if_neg hb, hv]
    cases e <;> rfl
  · intro hv
    unfold authMiddleware
    dsimp only
    rw [if_neg he, hsp]
    dsimp only
    rw [if_neg hb, hv]
  · intro hv
    unfold authMiddleware
    dsimp only
    rw [if_neg he, hsp]
    dsimp only
    rw [if_neg hb, hv]
  · intro hv
    unfold authMiddleware
    dsimp only
    rw [if_neg he, hsp]
    dsimp only
    rw [if_neg hb, hv]

/-- Witness for C7: an always-expired verifier on a concrete token. -/
theorem c7_unauthorized_uniform_externally_witness :
    (authMiddleware (fun _ => .error .tokenExpired)
       (some ("Bearer " ++ "tok123"))).isUnauthorized = true ∧
    authMiddleware (fun _ => .error .tokenExpired) (some ("Bearer " ++ "tok123")) =
      .unauthorized "Token expirado. Por favor, faça login novamente" :=
  ⟨(c7_unauthorized_uniform_externally (fun _ => .error .tokenExpired) "tok123"
      (by rfl)).1 .tokenExpired rfl,
   (c7_unauthorized_uniform_externally (fun _ => .error .tokenExpired) "tok123"
      (by rfl)).2.1 rfl⟩

/-- C8 counterexample: the v2 auth register endpoint response contains the
user object with the legacy papel and nome fields (the code removes only
senha by rest spread, and its own response documentation lists papel), so
a v2 endpoint response containing user data does expose the legacy role
and full name, refuting the universal claim. -/
theorem c8_counterexample_register_exposes_papel :
    "papel" ∈ viewKeys (registerUserView (register (fun s => "H" ++ s)
       ⟨none, some "Ana", some "Lima", "ana@escola.com", "senha123",
        some "PROFESSOR", none, none⟩ 1 0)) ∧
    "nome" ∈ viewKeys (registerUserView (register (fun s => "H" ++ s)
       ⟨none, some "Ana", some "Lima", "ana@escola.com", "senha123",
        some "PROFESSOR", none, none⟩ 1 0)) := by
  constructor <;> decide

/-- C8 amended: the v2 users endpoints expose at most the declared v2
field set and never senha, nome or papel; the v2 auth endpoints return the
row with only senha removed (hence they do expose nome and papel); and no
response view of any endpoint ever contains senha. -/
theorem c8_response_views_never_expose_senha :
    ∀ u : User,
      (∀ k, k ∈ viewKeys (v2UserView u) →
        k ∈ ["id", "primeiro_nome", "sobrenome", "email", "tipo_usuario",
             "telefone", "foto", "createdAt"]) ∧
      "senha" ∉ viewKeys (v2UserView u) ∧
      "nome" ∉ viewKeys (v2UserView u) ∧
      "papel" ∉ viewKeys (v2UserView u) ∧
      "senha" ∉ viewKeys (v2UserViewUpdated u) ∧
      "nome" ∉ viewKeys (v2UserViewUpdated u) ∧
      "papel" ∉ viewKeys (v2UserViewUpdated u) ∧
      "senha" ∉ viewKeys (registerUserView u) ∧
      "senha" ∉ viewKeys (v1UserView u) := by
  intro u
  refine ⟨?_, ?_, ?_, ?_, ?_, ?_, ?_, ?_, ?_⟩ <;>
    simp [viewKeys, v2UserView, v2UserViewUpdated, registerUserView, v1UserView]

/-- C9: creating a Question with a missing disciplinaId fails with the
error naming the subject, mapped to HTTP 400, and with a missing autorId
fails with the error naming the author, mapped to 400; in both cases the
store is unchanged, the checks running before the insert; and the same
re-validation applies on update whenever those fields are supplied. -/
theorem c9_question_fk_validation :
    (∀ (db : Db) (en : String) (df di au : Int) (rc : Option String)
       (av : Option Bool) (newId ts : Nat),
       ¬ (en = "" ∨ df = 0 ∨ di = 0 ∨ au = 0) →
       ¬ (df < 1 ∨ 5 < df) →
       ¬ (∃ q ∈ db.questions, q.enunciado = en) →
       di ∉ db.subjectIds →
       (createQuestion db ⟨some en, some df, rc, some di, some au, av⟩ newId ts =
          (db, .error "Disciplina não encontrada") ∧
        createQuestionStatus "Disciplina não encontrada" = 400 ∧
        includesSubstr "Disciplina não encontrada" "Disciplina")) ∧
    (∀ (db : Db) (en : String) (df di au : Int) (rc : Option String)
       (av : Option Bool) (newId ts : Nat),
       ¬ (en = "" ∨ df = 0 ∨ di = 0 ∨ au = 0) →
       ¬ (df < 1 ∨ 5 < df) →
       ¬ (∃ q ∈ db.questions, q.enunciado = en) →
       di ∈ db.subjectIds →
       au ∉ db.userIds →
       (createQuestion db ⟨some en, some df, rc, some di, some au, av⟩ newId ts =
          (db, .error "Autor não encontrado") ∧
        createQuestionStatus "Autor não encontrado" = 400 ∧
        includesSubstr "Autor não encontrado" "Autor")) ∧
    (∀ (db : Db) (qid : Int) (d : QuestionInput) (ts : Nat) (ex : Question),
       ¬ qid ≤ 0 →
       db.questions.find? (fun q => (q.id : Int) = qid) = some ex →
       fkMissing db.subjectIds d.disciplinaId →
       (updateQuestion db qid d ts = (db, .error "Disciplina não encontrada") ∧
        updateQuestionStatus "Disciplina não encontrada" = 400)) ∧
    (∀ (db : Db) (qid : Int) (d : QuestionInput) (ts : Nat) (ex : Question),
       ¬ qid ≤ 0 →
       db.questions.find? (fun q => (q.id : Int) = qid) = some ex →
       ¬ fkMissing db.subjectIds d.disciplinaId →
       fkMissing db.userIds d.autorId →
       (updateQuestion db qid d ts = (db, .error "Autor não encontrado") ∧
        updateQuestionStatus "Autor não encontrado" = 400)) := by
  refine ⟨?_, ?_, ?_, ?_⟩
  · intro db en df di au rc av newId ts h1 h2 h3 h4
    refine ⟨?_, by decide, by decide⟩
    unfold createQuestion
    dsimp only
    rw [if_neg h1, if_neg h2, if_neg h3, if_pos h4]
  · intro db en df di au rc av newId ts h1 h2 h3 h4 h5
    refine ⟨?_, by decide, by decide⟩
    unfold createQuestion
    dsimp only
    rw [if_neg h1, if_neg h2, if_neg h3, if_neg (by simpa using h4), if_pos h5]
  · intro db qid d ts ex hq hfind hmiss
    refine ⟨?_, by decide⟩
    unfold updateQuestion
    rw [if_neg hq, hfind]
    dsimp only
    rw [if_pos hmiss]
  · intro db qid d ts ex hq hfind hnd hau
    refine ⟨?_, by decide⟩
    unfold updateQuestion
    rw [if_neg hq, hfind]
    dsimp only
    rw [if_neg hnd, if_pos hau]

/-- A sample store: one subject with id 3, one user with id 9, one stored
question. -/
def sampleDb : Db :=
  { subjectIds := [3]
  , userIds := [9]
  , questions := [⟨1, "Q1", 3, none, 3, 9, true, 0, 0⟩] }

/-- Witness for C9 at the sample store: a create with an unknown subject
id, a create with an unknown author id, and the two update re-validations. -/
theorem c9_question_fk_validation_witness :
    (createQuestion sampleDb ⟨some "Q nova", some 3, none, some 4, some 9, none⟩ 2 1 =
       (sampleDb, .error "Disciplina não encontrada") ∧
     createQuestionStatus "Disciplina não encontrada" = 400 ∧
     includesSubstr "Disciplina não encontrada" "Disciplina") ∧
    (createQuestion sampleDb ⟨some "Q nova", some 3, none, some 3, some 4, none⟩ 2 1 =
       (sampleDb, .error "Autor não encontrado") ∧
     createQuestionStatus "Autor não encontrado" = 400 ∧
     includesSubstr "Autor não encontrado" "Autor") ∧
    (updateQuestion sampleDb 1 ⟨none, none, none, some 4, none, none⟩ 5 =
       (sampleDb, .error "Disciplina não encontrada") ∧
     updateQuestionStatus "Disciplina não encontrada" = 400) ∧
    (updateQuestion sampleDb 1 ⟨none, none, none, none, some 4, none⟩ 5 =
       (sampleDb, .error "Autor não encontrado") ∧
     updateQuestionStatus "Autor não encontrado" = 400) :=
  ⟨c9_question_fk_validation.1 sampleDb "Q nova" 3 4 9 none none 2 1
     (by decide) (by decide) (by decide) (by decide),
   c9_question_fk_validation.2.1 sampleDb "Q nova" 3 3 4 none none 2 1
     (by decide) (by decide) (by decide) (by decide) (by decide),
   c9_question_fk_validation.2.2.1 sampleDb 1 ⟨none, none, none, some 4, none, none⟩ 5
     ⟨1, "Q1", 3, none, 3, 9, true, 0, 0⟩ (by decide) (by decide) (by decide),
   c9_question_fk_validation.2.2.2 sampleDb 1 ⟨none, none, none, none, some 4, none⟩ 5
     ⟨1, "Q1", 3, none, 3, 9, true, 0, 0⟩ (by decide) (by decide) (by decide) (by decide)⟩

/-- Witness for C8 amended at the sample row. -/
theorem c8_response_views_never_expose_senha_witness :
    "id" ∈ ["id", "primeiro_nome", "sobrenome", "email", "tipo_usuario",
            "telefone", "foto", "createdAt"] ∧
    "senha" ∉ viewKeys (v2UserView anaUser) ∧
    "senha" ∉ viewKeys (registerUserView anaUser) :=
  ⟨(c8_response_views_never_expose_senha anaUser).1 "id" (by decide),
   (c8_response_views_never_expose_senha anaUser).2.1,
   (c8_response_views_never_expose_senha anaUser).2.2.2.2.2.2.2.1⟩
